import Mathlib

/-!
Verification of the transactional edit orchestrator of the modelserver-node
repository (shallow embedding).

The embedding models:
* `DefaultTransactionContext` (packages/modelserver-node/src/client/model-server-client.ts):
  the nested-context stack, result merging, `applyPatch`/`execute`, the
  close-time trigger fixpoint loop, and `rollback`.  The asynchronous socket
  round-trips are modelled by passing the correlated reply of each
  send/await pair as an explicit input; the messages written to the socket
  are recorded in the state.  A rejected promise is modelled as
  `Except.error`; since every embedded operation is a total function
  returning `Except`, "never throws synchronously, always rejects" is
  rendered as "always returns a value of the `Except` type".
* `CommandProviderRegistry` (command-provider-registry.ts).
* `TriggerProviderRegistry` with its synthesized `multiTriggerProvider`
  (trigger-provider-registry.ts), generic over an abstract `Executor`.
* `JSONSocket.onMessage`/`parse` (client/web-socket-utils.ts).
* `ValidationManager.performLiveValidation` / `EditService.performPatchValidation`
  (services/validation-manager.ts, edit-service).
-/

namespace ModelserverNode

/-- A JSON Patch operation (fast-json-patch `Operation`).  The orchestrator
treats operations opaquely (it only concatenates patch lists), so the payload
is rendered as plain strings. -/
structure Operation where
  op : String
  path : String
  value : Option String := none
deriving DecidableEq, Repr

/-- A `ModelServerCommand`: the orchestrator only inspects its `type`. -/
structure ModelServerCommand where
  eClass : String
  type : String
deriving DecidableEq, Repr

/-- `ModelUpdateResult` from the modelserver-client API:
`{ success: boolean, patch?: Operation[], patchModel?: ... }`.
`patchModel` is opaque to the orchestrator and rendered as a string. -/
structure ModelUpdateResult where
  success : Bool
  patch : Option (List Operation) := none
  patchModel : Option String := none
deriving DecidableEq, Repr

/-- The `patch: Operation | Operation[]` argument of `applyPatch`/`sendPatch`:
`nullish` models `null`/`undefined`, `single` a bare operation object,
`array` an operation array. -/
inductive PatchArg where
  | nullish
  | single (op : Operation)
  | array (ops : List Operation)
deriving DecidableEq, Repr

/-- `ExecuteMessageBody`: payload of an `execute` protocol message. -/
inductive ExecuteMessageBody where
  | emfcommand (c : ModelServerCommand)
  | patchBody (p : PatchArg)
deriving DecidableEq, Repr

/-- A message written to the transaction socket. -/
inductive SentMessage where
  | executeMsg (body : ExecuteMessageBody)
  | closeMsg
  | rollbackMsg (error : String)
deriving DecidableEq, Repr

/-- The mutable state of a `DefaultTransactionContext`:
whether `this.socket` is still set, the `nestedContexts` stack (head of the
list is the innermost/current frame; the TS code pushes to the array end and
peeks the last element), and the log of messages sent on the socket. -/
structure TCState where
  socketLive : Bool
  stack : List ModelUpdateResult
  sent : List SentMessage
deriving DecidableEq, Repr

/-- A `Transaction` function run against the transaction context itself as
`Executor`: it transforms the context state and either resolves with a
boolean or rejects; JavaScript mutations persist even when the promise
rejects, so the state is returned in both cases. -/
abbrev TxnFn := TCState → (Except String Bool) × TCState

/-- What a command provider's `getCommands` can resolve with:
a substitute command, a substitute JSON patch, or a transaction function. -/
inductive ProvidedCmd where
  | command (c : ModelServerCommand)
  | ops (l : List Operation)
  | txn (t : TxnFn)

/-- What `TriggerProviderRegistry.getTriggers` can resolve with inside the
transaction context: a trigger patch or a trigger transaction. -/
inductive TriggerResult where
  | ops (l : List Operation)
  | txn (t : TxnFn)

namespace CommandProviderRegistry

/-- A command provider: `canHandle` plus `getCommands`; a falsy
(`undefined`) result of the provider's `getCommands` is `none`. -/
structure CommandProvider where
  canHandle : ModelServerCommand → Bool
  getCommands : String → ModelServerCommand → Option ProvidedCmd

/-- The registry's `providers: Map<string, CommandProvider[]>`, rendered as
an association list with distinct keys. -/
abbrev Registry := List (String × List CommandProvider)

/-- `getProviders(commandType)`: the list registered under the type, or `[]`. -/
def getProviders (registry : Registry) (commandType : String) : List CommandProvider :=
  match registry.find? (fun e => e.1 == commandType) with
  | some e => e.2
  | none => []

/-- `hasProvider(commandType)`: whether the map has the key. -/
def hasProvider (registry : Registry) (commandType : String) : Bool :=
  (registry.find? (fun e => e.1 == commandType)).isSome

/-- `getProvider(command)`: first registered provider whose `canHandle`
accepts the command. -/
def getProvider (registry : Registry) (command : ModelServerCommand) :
    Option CommandProvider :=
  (getProviders registry command.type).find? fun p => p.canHandle command

/-- `getCommands(modelUri, customCommand)`: dispatch to the matching
provider; a falsy provider result is returned as-is (after a logged
warning), i.e. `none`; with no matching provider the original command
stands for itself. -/
def getCommands (registry : Registry) (modelUri : String)
    (customCommand : ModelServerCommand) : Option ProvidedCmd :=
  match getProvider registry customCommand with
  | some provider => provider.getCommands modelUri customCommand
  | none => some (.command customCommand)

end CommandProviderRegistry

namespace DefaultTransactionContext

/-- The aggregated update result a freshly pushed nested context starts
with: `MessageDataMapper.patchModel({type: success, data: {patch: []}})`,
i.e. a successful result with an empty patch list. -/
def freshUpdateResult : ModelUpdateResult :=
  { success := true, patch := some [] }

/-- The fixed result for an already closed / rolled back transaction:
`{ success: false }`. -/
def transactionClosed : ModelUpdateResult := { success := false }

/-- `pushNestedContext()`. -/
def pushNestedContext (s : TCState) : TCState :=
  { s with stack := freshUpdateResult :: s.stack }

/-- `peekNestedContext()`. -/
def peekNestedContext (s : TCState) : Option ModelUpdateResult :=
  s.stack.head?

/-- `mergeModelUpdateResult(dst, src)` (pure rendition of the in-place
mutation): when `src.patch` is a non-empty list, `success` is ANDed,
the patches are concatenated, and `patchModel` is carried over from `src`
when the merged result is successful and `src` has one. -/
def mergeModelUpdateResult (dst src : ModelUpdateResult) : ModelUpdateResult :=
  match src.patch with
  | some l =>
    if l.isEmpty then dst
    else
      let success := dst.success && src.success
      { success := success
        patch := some (dst.patch.getD [] ++ l)
        patchModel := if success && src.patchModel.isSome then src.patchModel else dst.patchModel }
  | none => dst

/-- `popNestedContext()`: pop the innermost frame and merge it into the new
top frame if one exists; `none` models the `TypeError` the TS code would
raise when destructuring `pop()` of an empty stack. -/
def popNestedContext (s : TCState) : Option (ModelUpdateResult × TCState) :=
  match s.stack with
  | [] => none
  | result :: rest =>
    let rest' :=
      match rest with
      | [] => []
      | currentContext :: up => mergeModelUpdateResult currentContext result :: up
    some (result, { s with stack := rest' })

/-- `sendExecuteMessage(body)`: reject when the socket is gone; otherwise
merge the correlated `reply` into the current (innermost) frame, record the
sent `execute` message, and resolve with the reply. -/
def sendExecuteMessage (s : TCState) (body : ExecuteMessageBody)
    (reply : ModelUpdateResult) : Except String ModelUpdateResult × TCState :=
  if s.socketLive = false then (.error "Socket is closed.", s)
  else
    match s.stack with
    | [] => (.error "TypeError: no nested context", s)
    | current :: rest =>
      (.ok reply,
       { s with
          stack := mergeModelUpdateResult current reply :: rest
          sent := s.sent ++ [.executeMsg body] })

/-- `sendPatch(patch)`. -/
def sendPatch (s : TCState) (patch : PatchArg) (reply : ModelUpdateResult) :
    Except String ModelUpdateResult × TCState :=
  sendExecuteMessage s (.patchBody patch) reply

/-- `sendCommand(command)`. -/
def sendCommand (s : TCState) (command : ModelServerCommand)
    (reply : ModelUpdateResult) : Except String ModelUpdateResult × TCState :=
  sendExecuteMessage s (.emfcommand command) reply

/-- `!patch || (Array.isArray(patch) && patch.length === 0)`. -/
def isEmptyPatchArg : PatchArg → Bool
  | .nullish => true
  | .single _ => false
  | .array ops => ops.isEmpty

/-- `applyPatch(patch)`: reject when the socket is gone; resolve with an
unsuccessful, unsent `{success: false}` on an empty patch; otherwise send
the patch. -/
def applyPatch (s : TCState) (patch : PatchArg) (reply : ModelUpdateResult) :
    Except String ModelUpdateResult × TCState :=
  if s.socketLive = false then (.error "Socket is closed.", s)
  else if isEmptyPatchArg patch then (.ok { success := false }, s)
  else sendPatch s patch reply

/-- `execute(modelUri, command)`: forward unclaimed commands unchanged;
for a provided transaction function push a nested frame, run it, and pop;
a falsy result pops (the TS `popNestedContext` still merges) and rejects;
a rejection propagates without popping; substitute commands and patches are
sent in the usual way, and a falsy provider result is sent as
`sendPatch(undefined)`. -/
def execute (s : TCState) (modelUri : String) (command : ModelServerCommand)
    (registry : CommandProviderRegistry.Registry) (reply : ModelUpdateResult) :
    Except String ModelUpdateResult × TCState :=
  if s.socketLive = false then (.error "Socket is closed.", s)
  else if CommandProviderRegistry.hasProvider registry command.type = false then
    sendCommand s command reply
  else
    match CommandProviderRegistry.getCommands registry modelUri command with
    | some (.txn provided) =>
      let s1 := pushNestedContext s
      let (res, s2) := provided s1
      match res with
      | .error e => (.error e, s2)
      | .ok success =>
        match popNestedContext s2 with
        | none => (.error "TypeError: no nested context", s2)
        | some (r, s3) =>
          if success = false then (.error "Command execution failed.", s3)
          else (.ok r, s3)
    | some (.command c) => sendCommand s c reply
    | some (.ops l) => sendPatch s (.array l) reply
    | none => sendPatch s .nullish reply

/-- `hasTriggers(triggers)`: `triggers && (typeof triggers === 'function'
|| triggers.length > 0)`. -/
def hasTriggers : Option TriggerResult → Bool
  | none => false
  | some (.txn _) => true
  | some (.ops l) => l.length > 0

/-- `performTriggers(triggers)`: push a nested frame, run the trigger
(transaction against `this`, or `applyPatch`), and pop in a `finally`
block, so the frame is popped (and merged by `popNestedContext`) even when
the trigger rejected; the rejection then propagates. -/
def performTriggers (s : TCState) (triggers : TriggerResult)
    (reply : ModelUpdateResult) : Except String ModelUpdateResult × TCState :=
  let s1 := pushNestedContext s
  let (res, s2) :=
    match triggers with
    | .txn t =>
      let (r, s') := t s1
      (r.map fun _ => (), s')
    | .ops l =>
      let (r, s') := applyPatch s1 (.array l) reply
      (r.map fun _ => (), s')
  match popNestedContext s2 with
  | none => (.error "TypeError: no nested context", s2)
  | some (result, s3) =>
    match res with
    | .ok _ => (.ok result, s3)
    | .error e => (.error e, s3)

/-- The `while (modelDelta && modelDelta.length)` fixpoint loop of
`close()`.  `getTriggers'` is the behaviour of
`TriggerProviderRegistry.getTriggers` for this model URI, `replies` yields
the correlated reply for the patch sent in each trigger round, and `fuel`
bounds the number of loop iterations (the TS loop is unbounded). -/
def closeLoop (getTriggers' : List Operation → Option TriggerResult)
    (replies : Nat → ModelUpdateResult) :
    Nat → ModelUpdateResult → Option (List Operation) → Nat → TCState →
    Except String ModelUpdateResult × TCState
  | 0, _, _, _, s => (.error "fuel exhausted", s)
  | fuel + 1, updateResult, modelDelta, round, s =>
    match modelDelta with
    | none => (.ok updateResult, { s with sent := s.sent ++ [.closeMsg] })
    | some l =>
      if l.isEmpty then (.ok updateResult, { s with sent := s.sent ++ [.closeMsg] })
      else
        let triggers := getTriggers' l
        if hasTriggers triggers = false then
          closeLoop getTriggers' replies fuel updateResult none round s
        else
          match triggers with
          | none => (.error "unreachable", s)
          | some tr =>
            match performTriggers s tr (replies round) with
            | (.error e, s') => (.error e, s')
            | (.ok triggerResult, s') =>
              closeLoop getTriggers' replies fuel
                (mergeModelUpdateResult updateResult triggerResult)
                triggerResult.patch (round + 1) s'

/-- `close()`: pop the current frame; return the fixed already-closed
result if the socket is gone; otherwise run the trigger fixpoint loop,
send the `close` protocol message, and return the aggregate. -/
def close (getTriggers' : List Operation → Option TriggerResult)
    (replies : Nat → ModelUpdateResult) (fuel : Nat) (s : TCState) :
    Except String ModelUpdateResult × TCState :=
  match popNestedContext s with
  | none => (.error "TypeError: no nested context", s)
  | some (updateResult, s1) =>
    if s1.socketLive = false then (.ok transactionClosed, s1)
    else closeLoop getTriggers' replies fuel updateResult updateResult.patch 0 s1

/-- `rollback(error)`: send a `roll-back` message if a socket exists and
resolve with the fixed unsuccessful result. -/
def rollback (s : TCState) (error : String) :
    Except String ModelUpdateResult × TCState :=
  if s.socketLive then
    (.ok transactionClosed, { s with sent := s.sent ++ [.rollbackMsg error] })
  else (.ok transactionClosed, s)

/-- A sequence of `applyPatch` calls, threading the state; each call is
paired with its correlated reply. -/
def runApplyPatches (s : TCState) (calls : List (PatchArg × ModelUpdateResult)) :
    TCState :=
  calls.foldl (fun st c => (applyPatch st c.1 c.2).2) s

end DefaultTransactionContext

namespace TriggerProviderRegistry

/-- The abstract `Executor` a trigger transaction runs against, as a state
machine over an opaque state `α`: `applyPatch` returns the model update
result and the next state. -/
structure ExecutorRec (α : Type) where
  applyPatch : α → List Operation → ModelUpdateResult × α

/-- What a trigger provider's `getTriggers` resolves with: a JSON Patch or
a transaction function over the shared executor. -/
inductive TriggerProvided (α : Type) where
  | ops (l : List Operation)
  | txn (t : ExecutorRec α → α → Bool × α)

/-- A trigger provider: `canTrigger` plus `getTriggers`. -/
structure TriggerProvider (α : Type) where
  canTrigger : String → List Operation → Bool
  getTriggers : String → List Operation → TriggerProvided α

/-- `getProviders(modelURI, patch)`: the registered providers (in
registration order — the `Map` iterates in insertion order) whose
`canTrigger` accepts the patch. -/
def getProviders {α : Type} (registry : List (TriggerProvider α)) (modelURI : String)
    (patch : List Operation) : List (TriggerProvider α) :=
  registry.filter fun provider => provider.canTrigger modelURI patch

/-- The loop body of the transaction returned by `multiTriggerProvider`:
for each provider in order, obtain its triggers; run a transaction result
against the executor and break when it balks; apply a non-empty patch
result via `executor.applyPatch`, overwriting `result` with its success
(without breaking); an empty patch leaves `result` unchanged. -/
def multiLoop {α : Type} (executor : ExecutorRec α) (modelURI : String)
    (modelDelta : List Operation) :
    List (TriggerProvider α) → Bool → α → Bool × α
  | [], result, a => (result, a)
  | provider :: rest, result, a =>
    match provider.getTriggers modelURI modelDelta with
    | .txn t =>
      let (r, a') := t executor a
      if r = false then (r, a')
      else multiLoop executor modelURI modelDelta rest r a'
    | .ops l =>
      if l.isEmpty then multiLoop executor modelURI modelDelta rest result a
      else
        let (mur, a') := executor.applyPatch a l
        multiLoop executor modelURI modelDelta rest mur.success a'

/-- `multiTriggerProvider(triggerProviders)`: the synthesized aggregate
provider; `canTrigger` is constantly true and `getTriggers` returns a
transaction function running `multiLoop` with `result` initialized to
`true`. -/
def multiTriggerProvider {α : Type} (triggerProviders : List (TriggerProvider α)) :
    TriggerProvider α :=
  { canTrigger := fun _ _ => true
    getTriggers := fun modelURI modelDelta =>
      .txn fun executor a =>
        multiLoop executor modelURI modelDelta triggerProviders true a }

/-- `getProvider(modelURI, patch)`: zero matches yield `undefined`, one
match yields that provider, two or more the synthesized aggregate. -/
def getProvider {α : Type} (registry : List (TriggerProvider α)) (modelURI : String)
    (patch : List Operation) : Option (TriggerProvider α) :=
  match getProviders registry modelURI patch with
  | [] => none
  | [p] => some p
  | ps => some (multiTriggerProvider ps)

/-- `getTriggers(modelURI, patch)`: invoke the (possibly aggregate)
provider, or resolve with `undefined` when there is none. -/
def getTriggers {α : Type} (registry : List (TriggerProvider α)) (modelURI : String)
    (patch : List Operation) : Option (TriggerProvided α) :=
  match getProvider registry modelURI patch with
  | some provider => some (provider.getTriggers modelURI patch)
  | none => none

end TriggerProviderRegistry

namespace JSONSocket

/-- Outcome of `JSON.parse` on the textual content of a frame: `ok v` when
it parses to the JSON value `v`, `fail` when it raises a `SyntaxError`. -/
inductive ParseResult (V : Type) where
  | ok (v : V)
  | fail
deriving DecidableEq, Repr

/-- The `WebSocket.RawData` of an inbound frame: a string, a `Buffer`
(whose `toString()` parses like the string case), or another kind of
payload. -/
inductive RawData (V : Type) where
  | str (p : ParseResult V)
  | buf (p : ParseResult V)
  | otherKind
deriving DecidableEq, Repr

/-- An inbound socket frame: the `isBinary` flag and the raw data. -/
structure Frame (V : Type) where
  isBinary : Bool
  data : RawData V
deriving DecidableEq, Repr

/-- What the message listener registered by `JSONSocket.onMessage` does
with one frame: drops it, invokes the subscriber's handler, or throws. -/
inductive ListenerOutcome (V : Type) where
  | dropped
  | invoked (msg : V)
  | threw
deriving DecidableEq, Repr

/-- `JSONSocket.parse(data, typeGuard)`: `JSON.parse` a string or a
`Buffer` (its `SyntaxError` propagates — there is no try/catch), get
`undefined` for any other kind of data, and return the object only when it
is truthy and satisfies the guard. -/
def parse {V : Type} (truthy guard : V → Bool) :
    RawData V → Except Unit (Option V)
  | .str .fail => .error ()
  | .buf .fail => .error ()
  | .str (.ok v) => .ok (if truthy v && guard v then some v else none)
  | .buf (.ok v) => .ok (if truthy v && guard v then some v else none)
  | .otherKind => .ok none

/-- The listener installed by `JSONSocket.onMessage`: return early on a
binary frame, parse otherwise, and invoke the handler only on a parsed,
guarded message. -/
def onMessageListener {V : Type} (truthy guard : V → Bool) (f : Frame V) :
    ListenerOutcome V :=
  if f.isBinary then .dropped
  else
    match parse truthy guard f.data with
    | .error _ => .threw
    | .ok (some v) => .invoked v
    | .ok none => .dropped

/-- The listener behaviour as the amended claim words it: binary frames
are dropped silently; a non-binary frame whose content fails to parse as
JSON makes the listener throw a `SyntaxError` (the handler is still not
invoked); a frame parsing to a truthy value satisfying the guard invokes
the handler; everything else is dropped silently. -/
def amendedListenerSpec {V : Type} (truthy guard : V → Bool) (f : Frame V) :
    ListenerOutcome V :=
  if f.isBinary then .dropped
  else
    match f.data with
    | .str .fail => .threw
    | .buf .fail => .threw
    | .str (.ok v) => if truthy v && guard v then .invoked v else .dropped
    | .buf (.ok v) => if truthy v && guard v then .invoked v else .dropped
    | .otherKind => .dropped

end JSONSocket

namespace ValidationManager

/-- `performLiveValidation(modelURI)`: short-circuit to `true` without
subscribers; otherwise the `validate(...).then(broadcastValidation(...))`
chain — whose outcome is the `validation` input, `Except.error` when it
rejected — runs under a `.catch` that logs and resolves `false`, so the
function always resolves with a boolean. -/
def performLiveValidation (hasSubscribers : Bool)
    (validation : Except String Bool) : Bool :=
  if hasSubscribers = false then true
  else
    match validation with
    | .ok broadcastResult => broadcastResult
    | .error _ => false

end ValidationManager

namespace EditService

/-- `performPatchValidation(modelURI)` applied to an edit outcome:
validate only successful results, with `.then(() => validate)` discarding
the validation verdict; unsuccessful results skip validation.  Since
`performLiveValidation` is total, the returned promise never rejects. -/
def performPatchValidation (validate : ModelUpdateResult)
    (hasSubscribers : Bool) (validation : Except String Bool) :
    Except String ModelUpdateResult :=
  if validate.success then
    Except.ok ((fun _ => validate)
      (ValidationManager.performLiveValidation hasSubscribers validation))
  else Except.ok validate

end EditService

/-! Concrete fixtures: operations, providers and an instrumented executor
used to evaluate the embedded operations on concrete inputs. -/

/-- The first trigger patch operation used in the registry test suite. -/
def op1 : Operation := { op := "replace", path := "/foo/bar/name", value := some "Provider 1" }

/-- The second trigger patch operation used in the registry test suite. -/
def op2 : Operation := { op := "remove", path := "/foo/bar/things/2" }

/-- The triggering patch operation used in the registry test suite. -/
def sizeOp : Operation := { op := "replace", path := "/foo/bar/size", value := some "42" }

/-- A trigger provider that always matches and provides a fixed patch. -/
def mkOpsProvider {α : Type} (l : List Operation) :
    TriggerProviderRegistry.TriggerProvider α :=
  { canTrigger := fun _ _ => true, getTriggers := fun _ _ => .ops l }

/-- A trigger provider that always matches and provides a transaction that
balks (resolves `false`) without touching the executor. -/
def falseTxnProvider {α : Type} : TriggerProviderRegistry.TriggerProvider α :=
  { canTrigger := fun _ _ => true, getTriggers := fun _ _ => .txn fun _ a => (false, a) }

/-- An instrumented executor whose state counts `applyPatch` calls and logs
their patches; the success of the i-th call (0-based) is `g i`. -/
def oracleExec (g : Nat → Bool) :
    TriggerProviderRegistry.ExecutorRec (Nat × List (List Operation)) :=
  { applyPatch := fun a l => ({ success := g a.1 }, (a.1 + 1, a.2 ++ [l])) }

/-- The patch operation used in the failed-nested-transaction scenario. -/
def opReplaceX : Operation := { op := "replace", path := "/x", value := some "1" }

/-- The upstream reply correlated with sending `[opReplaceX]`. -/
def c2Reply : ModelUpdateResult := { success := true, patch := some [opReplaceX] }

/-- A command transaction that applies one patch successfully and then
resolves falsy (balks). -/
def c2Transaction : TxnFn := fun s =>
  let (r, s') := DefaultTransactionContext.applyPatch s (.array [opReplaceX]) c2Reply
  match r with
  | .ok _ => (.ok false, s')
  | .error e => (.error e, s')

/-- A command provider handling every command of its type with
`c2Transaction`. -/
def c2Provider : CommandProviderRegistry.CommandProvider :=
  { canHandle := fun _ => true, getCommands := fun _ _ => some (.txn c2Transaction) }

/-- A registry with `c2Provider` registered for the `custom` command type. -/
def c2Registry : CommandProviderRegistry.Registry := [("custom", [c2Provider])]

/-- A custom command of type `custom`. -/
def c2Command : ModelServerCommand :=
  { eClass := "http://www.eclipse.org/emfcloud/modelserver/command#//Command"
    type := "custom" }

/-- A freshly opened transaction context: live socket, root frame pushed. -/
def c2Start : TCState :=
  { socketLive := true, stack := [DefaultTransactionContext.freshUpdateResult], sent := [] }

/-! Theorems. -/

/-- C6: validation never changes the reported edit outcome: whatever the
live validation chain does (succeeds, fails to broadcast, or rejects),
`performPatchValidation` delivers the edit's own `ModelUpdateResult`
unchanged and never rejects. -/
theorem c6_validation_never_changes_outcome (r : ModelUpdateResult)
    (hasSubscribers : Bool) (v1 v2 : Except String Bool) :
    EditService.performPatchValidation r hasSubscribers v1
      = EditService.performPatchValidation r hasSubscribers v2
    ∧ EditService.performPatchValidation r hasSubscribers v1 = .ok r := by
  refine ⟨?_, ?_⟩ <;> unfold EditService.performPatchValidation <;> split <;> rfl

/-- C7: `applyPatch` on an open transaction with an empty patch (empty
array or nullish) resolves to the unsuccessful `{success: false}` result
without sending anything and without touching the nested-context stack. -/
theorem c7_empty_patch_is_noop (s : TCState) (reply : ModelUpdateResult)
    (hlive : s.socketLive = true) :
    DefaultTransactionContext.applyPatch s (.array []) reply
      = (.ok { success := false }, s)
    ∧ DefaultTransactionContext.applyPatch s .nullish reply
      = (.ok { success := false }, s) := by
  unfold DefaultTransactionContext.applyPatch
  rw [hlive]
  exact ⟨rfl, rfl⟩

/-- Witness for C7 at a concrete open context. -/
theorem c7_witness :
    c2Start.socketLive = true
    ∧ DefaultTransactionContext.applyPatch c2Start (.array []) c2Reply
        = (.ok { success := false }, c2Start)
    ∧ DefaultTransactionContext.applyPatch c2Start .nullish c2Reply
        = (.ok { success := false }, c2Start) :=
  ⟨rfl, c7_empty_patch_is_noop c2Start c2Reply rfl⟩

/-- C2 (code bug): `execute` of a provided transaction that resolves falsy
does reject with `Command execution failed.`, but the popped frame's
accumulated patch is merged into the enclosing root frame by
`popNestedContext` — it is not discarded as the spec and the code's own
`NestedEditContext` documentation (`If a child transaction fails, its
state is discarded.`) require: the enclosing frame ends up with the
child's patch `[opReplaceX]` instead of staying pristine. -/
theorem c2_failed_transaction_merges_anyway :
    DefaultTransactionContext.execute c2Start "test:model" c2Command c2Registry c2Reply
      = (.error "Command execution failed.",
         { socketLive := true
           stack := [{ success := true, patch := some [opReplaceX] }]
           sent := [.executeMsg (.patchBody (.array [opReplaceX]))] })
    ∧ ({ success := true, patch := some [opReplaceX] } : ModelUpdateResult)
        ≠ DefaultTransactionContext.freshUpdateResult :=
  ⟨rfl, by decide⟩

/-- C8 counterexample: a non-binary text frame whose content fails to
parse as JSON makes the `onMessage` listener throw (there is no try/catch
around `JSON.parse`); it is not silently dropped as the claim states. -/
theorem c8_counterexample :
    JSONSocket.onMessageListener (fun _ => true) (fun _ => true)
        ({ isBinary := false, data := .str .fail } : JSONSocket.Frame Nat)
      = .threw
    ∧ (JSONSocket.ListenerOutcome.threw : JSONSocket.ListenerOutcome Nat)
        ≠ .dropped :=
  ⟨rfl, by decide⟩

/-- C8 (amended): the listener invokes the handler exactly for non-binary
frames that parse as JSON to a truthy value satisfying the guard; binary
frames and frames that parse but fail the guard are dropped silently; a
non-binary string/buffer frame that fails to parse as JSON raises a
`SyntaxError` from the listener (the handler is still not invoked). -/
theorem c8_amended_listener_behaviour {V : Type} (truthy guard : V → Bool)
    (f : JSONSocket.Frame V) :
    JSONSocket.onMessageListener truthy guard f
      = JSONSocket.amendedListenerSpec truthy guard f := by
  obtain ⟨b, d⟩ := f
  cases b
  · cases d with
    | str p =>
      cases p with
      | ok v =>
        by_cases h : (truthy v && guard v) = true <;>
          simp [JSONSocket.onMessageListener, JSONSocket.amendedListenerSpec,
            JSONSocket.parse, h]
      | fail => rfl
    | buf p =>
      cases p with
      | ok v =>
        by_cases h : (truthy v && guard v) = true <;>
          simp [JSONSocket.onMessageListener, JSONSocket.amendedListenerSpec,
            JSONSocket.parse, h]
      | fail => rfl
    | otherKind => rfl
  · rfl

/-- C9: with no matching command provider, `getCommands` resolves to the
original command unchanged; with no matching trigger provider,
`getTriggers` resolves to `undefined`. -/
theorem c9_identity_fallback {α : Type} (R : CommandProviderRegistry.Registry)
    (uri uriT : String) (cmd : ModelServerCommand)
    (T : List (TriggerProviderRegistry.TriggerProvider α)) (patch : List Operation)
    (hcmd : ∀ p ∈ CommandProviderRegistry.getProviders R cmd.type,
      p.canHandle cmd = false)
    (htrig : ∀ p ∈ T, p.canTrigger uriT patch = false) :
    CommandProviderRegistry.getCommands R uri cmd = some (.command cmd)
    ∧ TriggerProviderRegistry.getTriggers T uriT patch = none := by
  constructor
  · have h : (CommandProviderRegistry.getProviders R cmd.type).find?
        (fun p => p.canHandle cmd) = none :=
      List.find?_eq_none.mpr (by intro p hp; simp [hcmd p hp])
    unfold CommandProviderRegistry.getCommands CommandProviderRegistry.getProvider
    rw [h]
  · have h : TriggerProviderRegistry.getProviders T uriT patch = [] := by
      unfold TriggerProviderRegistry.getProviders
      exact List.filter_eq_nil_iff.mpr (by intro p hp; simp [htrig p hp])
    unfold TriggerProviderRegistry.getTriggers TriggerProviderRegistry.getProvider
    rw [h]

/-- A command provider that never handles anything. -/
def refusingProvider : CommandProviderRegistry.CommandProvider :=
  { canHandle := fun _ => false, getCommands := fun _ _ => none }

/-- A trigger provider that never triggers. -/
def refusingTriggerProvider {α : Type} : TriggerProviderRegistry.TriggerProvider α :=
  { canTrigger := fun _ _ => false, getTriggers := fun _ _ => .ops [] }

/-- Witness for C9 with concrete non-matching registries. -/
theorem c9_witness :
    CommandProviderRegistry.getCommands [("custom", [refusingProvider])]
        "test:m" c2Command = some (.command c2Command)
    ∧ TriggerProviderRegistry.getTriggers
        ([refusingTriggerProvider] : List (TriggerProviderRegistry.TriggerProvider Unit))
        "test:m" [sizeOp] = none := by
  refine c9_identity_fallback _ "test:m" "test:m" c2Command _ [sizeOp] ?_ ?_
  · intro p hp
    have h : CommandProviderRegistry.getProviders [("custom", [refusingProvider])]
        c2Command.type = [refusingProvider] := rfl
    rw [h] at hp
    rcases List.mem_singleton.mp hp with rfl
    rfl
  · intro p hp
    rcases List.mem_singleton.mp hp with rfl
    rfl

/-- C10: a matching provider whose `getCommands` resolves falsy makes the
registry's `getCommands` resolve to `undefined` (after a logged warning),
not to the original command. -/
theorem c10_matched_provider_falsy_result (R : CommandProviderRegistry.Registry)
    (uri : String) (cmd : ModelServerCommand)
    (p : CommandProviderRegistry.CommandProvider)
    (hprov : CommandProviderRegistry.getProvider R cmd = some p)
    (hres : p.getCommands uri cmd = none) :
    CommandProviderRegistry.getCommands R uri cmd = none := by
  unfold CommandProviderRegistry.getCommands
  rw [hprov]
  exact hres

/-- A command provider that handles everything but provides nothing. -/
def vacuousProvider : CommandProviderRegistry.CommandProvider :=
  { canHandle := fun _ => true, getCommands := fun _ _ => none }

/-- Witness for C10 with a concrete matching-but-empty provider. -/
theorem c10_witness :
    CommandProviderRegistry.getCommands [("custom", [vacuousProvider])]
      "test:m" c2Command = none :=
  c10_matched_provider_falsy_result _ "test:m" c2Command vacuousProvider rfl rfl

/-- When the registry query on the root frame's patch yields no trigger,
`close` on a live single-frame context finishes in one round. -/
theorem close_no_trigger (getTriggers' : List Operation → Option TriggerResult)
    (replies : Nat → ModelUpdateResult) (fuel : Nat) (top : ModelUpdateResult)
    (sent : List SentMessage)
    (hfuel : 2 ≤ fuel)
    (htrig : DefaultTransactionContext.hasTriggers (getTriggers' (top.patch.getD []))
      = false) :
    DefaultTransactionContext.close getTriggers' replies fuel
        { socketLive := true, stack := [top], sent := sent }
      = (.ok top, { socketLive := true, stack := [], sent := sent ++ [.closeMsg] }) := by
  obtain ⟨f, rfl⟩ : ∃ f, fuel = f + 2 := ⟨fuel - 2, by omega⟩
  unfold DefaultTransactionContext.close DefaultTransactionContext.popNestedContext
  cases htop : top.patch with
  | none =>
    simp [DefaultTransactionContext.closeLoop, htop]
  | some l =>
    rw [htop] at htrig
    simp only [Option.getD_some] at htrig
    by_cases hl : l.isEmpty
    · simp [DefaultTransactionContext.closeLoop, htop, hl]
    · simp [DefaultTransactionContext.closeLoop, htop, hl, htrig]

/-- C3: the trigger fixpoint loop of `close()` terminates as soon as a
round yields no trigger: when the registry query on the popped result's
patch produces no trigger (`undefined` or an empty trigger patch,
i.e. `hasTriggers` is false), `close` immediately sends the `close`
protocol message and returns the aggregate result. -/
theorem c3_close_terminates_without_trigger
    (getTriggers' : List Operation → Option TriggerResult)
    (replies : Nat → ModelUpdateResult) (fuel : Nat) (top : ModelUpdateResult)
    (sent : List SentMessage)
    (hfuel : 2 ≤ fuel)
    (htrig : DefaultTransactionContext.hasTriggers (getTriggers' (top.patch.getD []))
      = false) :
    DefaultTransactionContext.close getTriggers' replies fuel
        { socketLive := true, stack := [top], sent := sent }
      = (.ok top, { socketLive := true, stack := [], sent := sent ++ [.closeMsg] }) :=
  close_no_trigger getTriggers' replies fuel top sent hfuel htrig

/-- Witness for C3: a context whose root frame holds one patch operation
and a registry that yields no trigger. -/
theorem c3_witness :
    DefaultTransactionContext.close (fun _ => none) (fun _ => c2Reply) 2
        { socketLive := true, stack := [c2Reply], sent := [] }
      = (.ok c2Reply, { socketLive := true, stack := [], sent := [.closeMsg] }) :=
  c3_close_terminates_without_trigger (fun _ => none) (fun _ => c2Reply) 2 c2Reply []
    (by omega) rfl

/-- C4: on a transaction whose socket is no longer live, `applyPatch` and
`execute` reject (as values of the `Except` type — the embedded operations
are total functions, mirroring that the `async` methods never throw
synchronously) without changing the state, while `close` and `rollback`
resolve to the fixed already-closed result `{success: false}`. -/
theorem c4_dead_socket_behaviour (s : TCState) (p : PatchArg)
    (reply : ModelUpdateResult) (uri err : String) (cmd : ModelServerCommand)
    (R : CommandProviderRegistry.Registry)
    (getTriggers' : List Operation → Option TriggerResult)
    (replies : Nat → ModelUpdateResult) (fuel : Nat)
    (hdead : s.socketLive = false) (hstack : s.stack ≠ []) :
    DefaultTransactionContext.applyPatch s p reply = (.error "Socket is closed.", s)
    ∧ DefaultTransactionContext.execute s uri cmd R reply
        = (.error "Socket is closed.", s)
    ∧ (DefaultTransactionContext.close getTriggers' replies fuel s).1
        = .ok DefaultTransactionContext.transactionClosed
    ∧ DefaultTransactionContext.rollback s err
        = (.ok DefaultTransactionContext.transactionClosed, s) := by
  refine ⟨?_, ?_, ?_, ?_⟩
  · simp [DefaultTransactionContext.applyPatch, hdead]
  · simp [DefaultTransactionContext.execute, hdead]
  · rcases hs : s.stack with _ | ⟨r, rest⟩
    · exact absurd hs hstack
    · simp [DefaultTransactionContext.close, DefaultTransactionContext.popNestedContext,
        hs, hdead]
  · simp [DefaultTransactionContext.rollback, hdead]

/-- Witness for C4: a context that lost its socket while holding its root
frame. -/
theorem c4_witness :
    DefaultTransactionContext.applyPatch
        { socketLive := false, stack := [c2Reply], sent := [] } (.array [opReplaceX]) c2Reply
      = (.error "Socket is closed.", { socketLive := false, stack := [c2Reply], sent := [] })
    ∧ DefaultTransactionContext.execute
        { socketLive := false, stack := [c2Reply], sent := [] } "test:m" c2Command c2Registry c2Reply
      = (.error "Socket is closed.", { socketLive := false, stack := [c2Reply], sent := [] })
    ∧ (DefaultTransactionContext.close (fun _ => none) (fun _ => c2Reply) 2
        { socketLive := false, stack := [c2Reply], sent := [] }).1
      = .ok DefaultTransactionContext.transactionClosed
    ∧ DefaultTransactionContext.rollback
        { socketLive := false, stack := [c2Reply], sent := [] } "boom"
      = (.ok DefaultTransactionContext.transactionClosed,
         { socketLive := false, stack := [c2Reply], sent := [] }) :=
  c4_dead_socket_behaviour _ (.array [opReplaceX]) c2Reply "test:m" "boom" c2Command
    c2Registry (fun _ => none) (fun _ => c2Reply) 2 rfl (by simp)

/-- One non-empty `applyPatch` call on a live context merges the reply
into the innermost frame and records the sent message. -/
theorem applyPatch_live_nonempty (p : PatchArg) (reply top : ModelUpdateResult)
    (rest : List ModelUpdateResult) (sent : List SentMessage)
    (hp : DefaultTransactionContext.isEmptyPatchArg p = false) :
    DefaultTransactionContext.applyPatch
        { socketLive := true, stack := top :: rest, sent := sent } p reply
      = (.ok reply,
         { socketLive := true
           stack := DefaultTransactionContext.mergeModelUpdateResult top reply :: rest
           sent := sent ++ [.executeMsg (.patchBody p)] }) := by
  simp [DefaultTransactionContext.applyPatch, hp, DefaultTransactionContext.sendPatch,
    DefaultTransactionContext.sendExecuteMessage]

/-- A sequence of non-empty `applyPatch` calls on a live context folds the
replies into the innermost frame, in call order, and records one `execute`
message per call. -/
theorem runApplyPatches_stack (calls : List (PatchArg × ModelUpdateResult)) :
    ∀ (top : ModelUpdateResult) (rest : List ModelUpdateResult)
      (sent : List SentMessage),
    (∀ c ∈ calls, DefaultTransactionContext.isEmptyPatchArg c.1 = false) →
    DefaultTransactionContext.runApplyPatches
        { socketLive := true, stack := top :: rest, sent := sent } calls
      = { socketLive := true
          stack := (calls.foldl
            (fun t c => DefaultTransactionContext.mergeModelUpdateResult t c.2) top) :: rest
          sent := sent ++ calls.map fun c => .executeMsg (.patchBody c.1) } := by
  induction calls with
  | nil =>
    intro top rest sent _
    simp [DefaultTransactionContext.runApplyPatches]
  | cons c cs ih =>
    intro top rest sent h
    have hc := h c (List.mem_cons_self _ _)
    have step := applyPatch_live_nonempty c.1 c.2 top rest sent hc
    unfold DefaultTransactionContext.runApplyPatches
    rw [List.foldl_cons]
    have h2 : (DefaultTransactionContext.applyPatch
        { socketLive := true, stack := top :: rest, sent := sent } c.1 c.2).2
        = { socketLive := true
            stack := DefaultTransactionContext.mergeModelUpdateResult top c.2 :: rest
            sent := sent ++ [.executeMsg (.patchBody c.1)] } := by rw [step]
    rw [h2]
    have := ih (DefaultTransactionContext.mergeModelUpdateResult top c.2) rest
      (sent ++ [.executeMsg (.patchBody c.1)])
      (fun x hx => h x (List.mem_cons_of_mem _ hx))
    unfold DefaultTransactionContext.runApplyPatches at this
    rw [this]
    simp

/-- Folding `mergeModelUpdateResult` over a list of replies concatenates
the reply patches (a missing or empty reply patch contributes nothing). -/
theorem foldl_merge_patch (rs : List ModelUpdateResult) :
    ∀ (t : ModelUpdateResult) (l : List Operation), t.patch = some l →
    (rs.foldl DefaultTransactionContext.mergeModelUpdateResult t).patch
      = some (l ++ (rs.map fun r => r.patch.getD []).flatten) := by
  induction rs with
  | nil =>
    intro t l h
    simp [h]
  | cons r rs ih =>
    intro t l h
    rw [List.foldl_cons]
    cases hr : r.patch with
    | none =>
      have hm : DefaultTransactionContext.mergeModelUpdateResult t r = t := by
        simp [DefaultTransactionContext.mergeModelUpdateResult, hr]
      rw [hm, ih t l h]
      simp [hr]
    | some p =>
      by_cases hp : p.isEmpty
      · have hpnil : p = [] := by
          cases p
          · rfl
          · simp [List.isEmpty] at hp
        have hm : DefaultTransactionContext.mergeModelUpdateResult t r = t := by
          simp [DefaultTransactionContext.mergeModelUpdateResult, hr, hpnil]
        rw [hm, ih t l h]
        simp [hr, hpnil]
      · have hm : (DefaultTransactionContext.mergeModelUpdateResult t r).patch
            = some (l ++ p) := by
          simp [DefaultTransactionContext.mergeModelUpdateResult, hr, hp, h]
        rw [ih _ _ hm]
        simp [hr, List.append_assoc]

/-- C1: after any sequence of successful (non-empty, replied) `applyPatch`
calls on a freshly opened context, a trigger-free `close()` returns a
result whose patch is exactly the concatenation of the calls' reply
patches in call order; and popping a nested context merges it into the new
top frame purely by appending its patch list. -/
theorem c1_close_concatenates_patches
    (calls : List (PatchArg × ModelUpdateResult))
    (getTriggers' : List Operation → Option TriggerResult)
    (replies : Nat → ModelUpdateResult) (fuel : Nat)
    (sent0 sent1 : List SentMessage) (liveB : Bool)
    (top r : ModelUpdateResult) (rest : List ModelUpdateResult)
    (hcalls : ∀ c ∈ calls, DefaultTransactionContext.isEmptyPatchArg c.1 = false)
    (htrig : ∀ l, DefaultTransactionContext.hasTriggers (getTriggers' l) = false)
    (hfuel : 2 ≤ fuel) :
    (∃ res s',
        DefaultTransactionContext.close getTriggers' replies fuel
            (DefaultTransactionContext.runApplyPatches
              { socketLive := true
                stack := [DefaultTransactionContext.freshUpdateResult]
                sent := sent0 } calls)
          = (.ok res, s')
        ∧ res.patch = some ((calls.map fun c => c.2.patch.getD []).flatten))
    ∧ DefaultTransactionContext.popNestedContext
        { socketLive := liveB, stack := r :: top :: rest, sent := sent1 }
        = some (r, { socketLive := liveB
                     stack := DefaultTransactionContext.mergeModelUpdateResult top r :: rest
                     sent := sent1 })
    ∧ (DefaultTransactionContext.mergeModelUpdateResult top r).patch.getD []
        = top.patch.getD [] ++ r.patch.getD [] := by
  refine ⟨?_, rfl, ?_⟩
  · rw [runApplyPatches_stack calls _ [] sent0 hcalls]
    have hfold : calls.foldl
        (fun t c => DefaultTransactionContext.mergeModelUpdateResult t c.2)
        DefaultTransactionContext.freshUpdateResult
        = (calls.map Prod.snd).foldl DefaultTransactionContext.mergeModelUpdateResult
            DefaultTransactionContext.freshUpdateResult := by
      rw [List.foldl_map]
    have hUR : (calls.foldl
        (fun t c => DefaultTransactionContext.mergeModelUpdateResult t c.2)
        DefaultTransactionContext.freshUpdateResult).patch
        = some ((calls.map fun c => c.2.patch.getD []).flatten) := by
      rw [hfold, foldl_merge_patch (calls.map Prod.snd)
        DefaultTransactionContext.freshUpdateResult [] rfl]
      simp only [List.map_map, List.nil_append]
      rfl
    refine ⟨_, _, close_no_trigger getTriggers' replies fuel _ _ hfuel (htrig _), hUR⟩
  · cases hr : r.patch with
    | none => simp [DefaultTransactionContext.mergeModelUpdateResult, hr]
    | some p =>
      by_cases hp : p.isEmpty
      · have hpnil : p = [] := by
          cases p
          · rfl
          · simp [List.isEmpty] at hp
        simp [DefaultTransactionContext.mergeModelUpdateResult, hr, hpnil]
      · cases htop : top.patch <;>
          simp [DefaultTransactionContext.mergeModelUpdateResult, hr, hp, htop]

/-- Witness for C1: two `applyPatch` calls whose replies carry one
operation each; the closed result's patch is their concatenation. -/
theorem c1_witness :
    (∃ res s',
        DefaultTransactionContext.close (fun _ => none) (fun _ => c2Reply) 2
            (DefaultTransactionContext.runApplyPatches
              { socketLive := true
                stack := [DefaultTransactionContext.freshUpdateResult]
                sent := [] }
              [(.array [op1], { success := true, patch := some [op1] }),
               (.array [op2], { success := true, patch := some [op2] })])
          = (.ok res, s')
        ∧ res.patch = some (([(PatchArg.array [op1],
              ({ success := true, patch := some [op1] } : ModelUpdateResult)),
            (PatchArg.array [op2],
              ({ success := true, patch := some [op2] } : ModelUpdateResult))].map
              fun c => c.2.patch.getD []).flatten))
    ∧ DefaultTransactionContext.popNestedContext
        { socketLive := true
          stack := c2Reply :: DefaultTransactionContext.freshUpdateResult :: []
          sent := [] }
        = some (c2Reply,
            { socketLive := true
              stack := [DefaultTransactionContext.mergeModelUpdateResult
                DefaultTransactionContext.freshUpdateResult c2Reply]
              sent := [] })
    ∧ (DefaultTransactionContext.mergeModelUpdateResult
          DefaultTransactionContext.freshUpdateResult c2Reply).patch.getD []
        = DefaultTransactionContext.freshUpdateResult.patch.getD []
            ++ c2Reply.patch.getD [] :=
  c1_close_concatenates_patches
    [(.array [op1], { success := true, patch := some [op1] }),
     (.array [op2], { success := true, patch := some [op2] })]
    (fun _ => none) (fun _ => c2Reply) 2 [] [] true
    DefaultTransactionContext.freshUpdateResult c2Reply []
    (by intro c hc; fin_cases hc <;> rfl)
    (fun _ => rfl) (by omega)

/-- `getProviders` keeps every provider whose `canTrigger` holds. -/
theorem getProviders_all_true {α : Type}
    (ps : List (TriggerProviderRegistry.TriggerProvider α)) (uri : String)
    (patch : List Operation)
    (h : ∀ p ∈ ps, p.canTrigger uri patch = true) :
    TriggerProviderRegistry.getProviders ps uri patch = ps := by
  unfold TriggerProviderRegistry.getProviders
  exact List.filter_eq_self.mpr (by intro p hp; simp [h p hp])

/-- Evaluation of one `applyPatch` call on the instrumented executor. -/
theorem oracleExec_applyPatch (g : Nat → Bool) (a : Nat × List (List Operation))
    (l : List Operation) :
    (oracleExec g).applyPatch a l = ({ success := g a.1 }, (a.1 + 1, a.2 ++ [l])) :=
  rfl

/-- `multiLoop` over patch-only providers with non-empty patches applies
every patch in registration order against the instrumented executor and
finishes with the success of the last `applyPatch` call. -/
theorem multiLoop_allOps (g : Nat → Bool) (uri : String) (delta : List Operation)
    (ops : List (List Operation)) :
    ∀ (n0 : Nat) (log0 : List (List Operation)) (r0 : Bool),
    ops ≠ [] → (∀ l ∈ ops, l ≠ []) →
    TriggerProviderRegistry.multiLoop (oracleExec g) uri delta
        (ops.map mkOpsProvider) r0 (n0, log0)
      = (g (n0 + ops.length - 1), (n0 + ops.length, log0 ++ ops)) := by
  induction ops with
  | nil => intro _ _ _ h _; exact absurd rfl h
  | cons l rest ih =>
    intro n0 log0 r0 _ hall
    have hl : l.isEmpty = false := by
      cases hln : l
      · exact absurd rfl (hln ▸ hall l (List.mem_cons_self _ _))
      · rfl
    rw [List.map_cons]
    unfold TriggerProviderRegistry.multiLoop
    simp only [mkOpsProvider, hl, oracleExec_applyPatch, Bool.false_eq_true, if_false]
    cases rest with
    | nil =>
      simp [TriggerProviderRegistry.multiLoop]
    | cons r2 rs =>
      rw [ih (n0 + 1) (log0 ++ [l]) (g n0) (by simp)
        (fun x hx => hall x (List.mem_cons_of_mem _ hx))]
      have hidx : n0 + 1 + (r2 :: rs).length - 1 = n0 + (l :: r2 :: rs).length - 1 := by
        simp only [List.length_cons]
        omega
      have hlen : n0 + 1 + (r2 :: rs).length = n0 + (l :: r2 :: rs).length := by
        simp only [List.length_cons]
        omega
      rw [hidx, hlen]
      simp [List.append_assoc]

/-- `multiLoop` stops at the first balking sub-transaction: the providers
after it are never invoked and the overall result is `false`. -/
theorem multiLoop_txn_break (g : Nat → Bool) (uri : String) (delta : List Operation)
    (opsA : List (List Operation))
    (tailProvs : List (TriggerProviderRegistry.TriggerProvider
      (Nat × List (List Operation)))) :
    ∀ (n0 : Nat) (log0 : List (List Operation)) (r0 : Bool),
    (∀ l ∈ opsA, l ≠ []) →
    TriggerProviderRegistry.multiLoop (oracleExec g) uri delta
        (opsA.map mkOpsProvider ++ falseTxnProvider :: tailProvs) r0 (n0, log0)
      = (false, (n0 + opsA.length, log0 ++ opsA)) := by
  induction opsA with
  | nil =>
    intro n0 log0 r0 _
    simp [TriggerProviderRegistry.multiLoop, falseTxnProvider]
  | cons l rest ih =>
    intro n0 log0 r0 hall
    have hl : l.isEmpty = false := by
      cases hln : l
      · exact absurd rfl (hln ▸ hall l (List.mem_cons_self _ _))
      · rfl
    rw [List.map_cons, List.cons_append]
    unfold TriggerProviderRegistry.multiLoop
    simp only [mkOpsProvider, hl, oracleExec_applyPatch, Bool.false_eq_true, if_false]
    rw [ih (n0 + 1) (log0 ++ [l]) (g n0)
      (fun x hx => hall x (List.mem_cons_of_mem _ hx))]
    have hlen : n0 + 1 + rest.length = n0 + (l :: rest).length := by
      simp only [List.length_cons]
      omega
    rw [hlen]
    simp [List.append_assoc]

/-- C5 counterexample: two matching patch-providers against an executor
whose first `applyPatch` fails and whose second succeeds.  The aggregate
provider invokes both, the invoked sub-results are `false` then `true`
(their AND is `false`), yet the aggregate transaction resolves `true`: the
overall success is the last sub-result, not the AND of all of them. -/
theorem c5_counterexample :
    ∃ t, TriggerProviderRegistry.getTriggers
        ([mkOpsProvider [op1], mkOpsProvider [op2]] :
          List (TriggerProviderRegistry.TriggerProvider (Nat × List (List Operation))))
        "test:a" [sizeOp]
        = some (.txn t)
      ∧ t (oracleExec fun n => decide (n = 1)) (0, [])
          = (true, (2, [[op1], [op2]]))
      ∧ (decide (0 = 1) && decide (1 = 1)) = false :=
  ⟨_, rfl, rfl, rfl⟩

/-- C5 (amended): with two or more matching providers the registry returns
an aggregate whose transaction invokes each matching provider in
registration order and applies each non-empty provided patch via the
shared executor's `applyPatch`; it stops early at the first failing
sub-transaction; but the overall success is the result of the most recent
invoked sub-action (each sub-result overwrites the previous; a failed
patch application does not stop the iteration and can be overwritten by a
later success), not the AND of all invoked sub-results. -/
theorem c5_aggregate_last_result_semantics
    (ops opsA opsB : List (List Operation)) (g : Nat → Bool) (uri : String)
    (delta : List Operation)
    (h2 : 2 ≤ ops.length) (hall : ∀ l ∈ ops, l ≠ [])
    (hallA : ∀ l ∈ opsA, l ≠ []) :
    (∃ t, TriggerProviderRegistry.getTriggers
        (ops.map (mkOpsProvider (α := Nat × List (List Operation)))) uri delta
        = some (.txn t)
      ∧ t (oracleExec g) (0, []) = (g (ops.length - 1), (ops.length, ops)))
    ∧ TriggerProviderRegistry.multiLoop (oracleExec g) uri delta
        (opsA.map mkOpsProvider ++ falseTxnProvider :: opsB.map mkOpsProvider)
        true (0, [])
        = (false, (opsA.length, opsA)) := by
  constructor
  · have hfilter : TriggerProviderRegistry.getProviders
        (ops.map (mkOpsProvider (α := Nat × List (List Operation)))) uri delta
        = ops.map mkOpsProvider :=
      getProviders_all_true _ uri delta
        (by intro p hp; rcases List.mem_map.mp hp with ⟨l, _, rfl⟩; rfl)
    rcases ops with _ | ⟨l1, _ | ⟨l2, restOps⟩⟩
    · simp at h2
    · simp at h2
    · refine ⟨fun ex a => TriggerProviderRegistry.multiLoop ex uri delta
          ((l1 :: l2 :: restOps).map mkOpsProvider) true a, ?_, ?_⟩
      · unfold TriggerProviderRegistry.getTriggers TriggerProviderRegistry.getProvider
        rw [hfilter]
        rfl
      · have := multiLoop_allOps g uri delta (l1 :: l2 :: restOps) 0 [] true
          (by simp) hall
        simpa using this
  · have := multiLoop_txn_break g uri delta opsA (opsB.map mkOpsProvider) 0 [] true hallA
    simpa using this

/-- Witness for C5 (amended) at two concrete patch providers, an executor
that succeeds on both calls, and a break scenario. -/
theorem c5_witness :
    (∃ t, TriggerProviderRegistry.getTriggers
        ([[op1], [op2]].map (mkOpsProvider (α := Nat × List (List Operation))))
        "test:a" [sizeOp]
        = some (.txn t)
      ∧ t (oracleExec fun _ => true) (0, [])
          = ((fun _ => true : Nat → Bool) ([[op1], [op2]].length - 1),
             ([[op1], [op2]].length, [[op1], [op2]])))
    ∧ TriggerProviderRegistry.multiLoop (oracleExec fun _ => true) "test:a" [sizeOp]
        ([[op1]].map mkOpsProvider ++ falseTxnProvider :: [[op2]].map mkOpsProvider)
        true (0, [])
        = (false, ([[op1]].length, [[op1]])) :=
  c5_aggregate_last_result_semantics [[op1], [op2]] [[op1]] [[op2]]
    (fun _ => true) "test:a" [sizeOp] (by decide)
    (by intro l hl; fin_cases hl <;> simp)
    (by intro l hl; fin_cases hl; simp)

end ModelserverNode
